import Mathlib

/-!
Heartbleed test server (`bleed_serve_moz.go`).

A shallow embedding of the request handlers of `bleed_serve_moz.go` and the
properties of its classification orchestrator `handleRequest`.

The handler talks to three collaborators that live in other packages
(`cache`, `bleed`, `mzutil`).  They are taken as parameters (`Env`) acting on
an explicit world state; the handler itself is translated statement by
statement, with the source line of each step in the margin.  A run-time panic
of the Go program (a method call on a nil interface value, an index out of
range) is an explicit outcome: the world reached so far is kept, the rest of
the handler does not run.  The server (`net/http`) recovers such a panic and
goes on serving; the request that panicked gets no response.
-/

namespace Heartbleed

/-! ## Data model -/

/-- The type `bleed.Target`, of which the handlers use the two fields below. -/
structure Target where
  HostIp : String
  Service : String
deriving DecidableEq, Repr

/-- A non-nil value of Go's `error` interface, as far as this program can tell
such values apart: the two sentinels `bleed.Safe` and `bleed.Closed`, which
line 64 compares by identity, or any other error value, carrying the text its
`Error()` method returns.  The nil interface value is `none : Option GoError`. -/
inductive GoError where
  | Safe
  | Closed
  | other (text : String)
deriving DecidableEq, Repr

/-- Modelled from the spec: the reply of `cache.Check` (package `cache` is not
among the sources); §4.3 gives `Check(hostIdentity) -> (classification, found)`.
The handler reads the field `Status` and converts it with `int(...)`, taken
here as the identity on integers. -/
structure CacheReply where
  Status : Int
deriving DecidableEq, Repr

/-- The struct `result` of lines 43-48. -/
structure result where
  Code : Int
  Data : String
  Error : String
  Host : String
deriving DecidableEq, Repr

/-- One `log.Printf` call of `handleRequest`, by call site, with the values it
is given (the formatting itself is the standard library's). -/
inductive LogLine where
  | checking (host : String)                          -- line 61
  | cacheError (text : String)                        -- line 95
  | vulnerable (host service : String) (skip : Bool)  -- line 100
  | safe (host service : String)                      -- line 103
  | mismatch (host service : String)                  -- line 109
  | error (host service errS : String)                -- line 111
deriving DecidableEq, Repr

/-- A call made to the cache store or to the prober. -/
inductive Call where
  | Check (host : String)
  | Heartbleed (tgt : Target) (payload : String) (skip : Bool)
  | Set (host : String) (rc : Int)
deriving DecidableEq, Repr

/-- The part of `http.ResponseWriter` the handlers use: the header map and the
bodies written.  A body is `json.Marshal(res)` for a `result` value `res`; it
is recorded as `res` itself (marshalling a struct of an int and three strings
has no error case, so the branch of line 125 is never taken). -/
structure ResponseWriter where
  header : List (String × String)
  body : List result
deriving DecidableEq, Repr

/-- The call `w.Header().Set(key, value)`. -/
def ResponseWriter.HeaderSet (w : ResponseWriter) (key value : String) : ResponseWriter :=
  { w with header := (key, value) :: w.header.filter (fun kv => kv.1 ≠ key) }

/-- The call `w.Write(j)` where `j` is the marshalled `res`. -/
def ResponseWriter.Write (w : ResponseWriter) (res : result) : ResponseWriter :=
  { w with body := w.body ++ [res] }

/-- The named counters of `mzutil.Metrics`. -/
abbrev Metrics := String → Nat

/-- Modelled from the spec: `metrics.Increment(name)` (package `mzutil` is not
among the sources); §4.4 and §3: named counters, an increment adds one to the
named counter, no update is lost and no other counter changes. -/
def Metrics.Increment (m : Metrics) (name : String) : Metrics :=
  fun n => if n = name then m n + 1 else m n

/-- What the handlers act on: the cache store behind package `cache`, whatever
the prober talks to, the process-wide counters, the log, and the record of the
calls made to cache and prober. -/
structure World (κ π : Type) where
  cache : κ
  net : π
  metrics : Metrics
  log : List LogLine
  calls : List Call

/-- The collaborators of `handleRequest`, none of them among the sources:
`cache.Check` (`none` is `ok = false`), `cache.Set` (the new store and the
error returned, `none` for nil), `bleed.Heartbleed` (the new state of the
network, the data and the error returned), and the texts that `Error()` gives
for the two sentinel errors. -/
structure Env (κ π : Type) where
  Check : κ → String → Option CacheReply
  Set : κ → String → Int → κ × Option GoError
  Heartbleed : π → Target → String → Bool → π × String × Option GoError
  SafeText : String
  ClosedText : String

/-- The method `Error()` of a non-nil error value. -/
def Env.Error {κ π : Type} (env : Env κ π) : GoError → String
  | GoError.Safe => env.SafeText
  | GoError.Closed => env.ClosedText
  | GoError.other text => text

/-- How a handler call ends. -/
inductive Completion where
  | returned
  | panicked
deriving DecidableEq, Repr

/-- The world and the response writer after a handler call, and how it ended. -/
structure Outcome (κ π : Type) where
  world : World κ π
  w : ResponseWriter
  completion : Completion

/-- The variable `PAYLOAD` of line 21. -/
def PAYLOAD : String := "heartbleed.mozilla.com"

/-- The slice `metricName` of line 57. -/
def metricName : List String := ["vulnerable", "safe", "error"]

/-- A Go slice index `xs[i]` with an `int` index: out of range is a panic. -/
def index (xs : List String) (i : Int) : Option String :=
  if i < 0 then none else xs[i.toNat]?

/-! ## `handleRequest` -/

/-- Lines 120-129 of `handleRequest`: clear the data, build the result, write it. -/
def respond {κ π : Type} (tgt : Target) (rc : Int) (_data errS : String)
    (w : ResponseWriter) (s : World κ π) : Outcome κ π :=
  let data := ""                                                         -- 121
  let res : result := ⟨rc, data, errS, tgt.HostIp⟩                       -- 123
  ⟨s, w.Write res, Completion.returned⟩                                  -- 124-129

/-- Lines 98-114 of `handleRequest`: the `switch rc`, giving the new values of
`data` and `errS` and the log. -/
def switchRc {κ π : Type} (env : Env κ π) (tgt : Target) (skip : Bool) (rc : Int)
    (err : Option GoError) (data errS : String) (log : List LogLine) :
    String × String × List LogLine :=
  if rc = 0 then                                                         -- 99
    (data, errS, log ++ [LogLine.vulnerable tgt.HostIp tgt.Service skip])
  else if rc = 1 then                                                    -- 101
    ("", errS, log ++ [LogLine.safe tgt.HostIp tgt.Service])
  else if rc = 2 then                                                    -- 104
    match err with                                                       -- 106
    | some e =>
      let errS := env.Error e                                            -- 107
      if errS = "Please try again" then                                  -- 108
        ("", errS, log ++ [LogLine.mismatch tgt.HostIp tgt.Service])
      else
        ("", errS, log ++ [LogLine.error tgt.HostIp tgt.Service errS])
    | none => ("", errS, log)
  else (data, errS, log)

/-- Lines 98-129 of `handleRequest`: the `switch rc`, then the response. -/
def finish {κ π : Type} (env : Env κ π) (tgt : Target) (skip : Bool) (rc : Int)
    (err : Option GoError) (data errS : String) (w : ResponseWriter)
    (s : World κ π) : Outcome κ π :=
  let sw := switchRc env tgt skip rc err data errS s.log                 -- 98-114
  respond tgt rc sw.1 sw.2.1 w { s with log := sw.2.2 }                  -- 120-129

/-- The function `handleRequest` of lines 50-130. -/
def handleRequest {κ π : Type} (env : Env κ π) (tgt : Target) (w : ResponseWriter)
    (skip : Bool) (s : World κ π) : Outcome κ π :=
  let w := w.HeaderSet "Access-Control-Allow-Origin" "*"                 -- 51
  let errS := ""                                                         -- 56
  let data := ""                                                         -- 58
  let s := { s with calls := s.calls ++ [Call.Check tgt.HostIp] }
  match env.Check s.cache tgt.HostIp with                                -- 59
  | none =>
    let s := { s with log := s.log ++ [LogLine.checking tgt.HostIp] }    -- 61
    let r := env.Heartbleed s.net tgt PAYLOAD skip                       -- 62
    let data := r.2.1
    let err := r.2.2
    let s := { s with net := r.1,
                      calls := s.calls ++ [Call.Heartbleed tgt PAYLOAD skip] }
    let rc : Int :=
      if err = some GoError.Safe ∨ err = some GoError.Closed then 1      -- 64-65
      else if err ≠ none then 2                                          -- 66-67
      else 0                                                             -- 69
    let s := { s with metrics := s.metrics.Increment "total" }           -- 90
    match index metricName rc with                                       -- 91
    | none => ⟨s, w, Completion.panicked⟩
    | some name =>
      let s := { s with metrics := s.metrics.Increment name }
      let c := env.Set s.cache tgt.HostIp rc                             -- 93
      let cerr := c.2
      let s := { s with cache := c.1, calls := s.calls ++ [Call.Set tgt.HostIp rc] }
      match cerr with                                                    -- 94
      | some _ =>
        -- 95: the message is `err.Error()`, `err` being the prober's error
        match err with
        | none => ⟨s, w, Completion.panicked⟩
        | some e =>
          let s := { s with log := s.log ++ [LogLine.cacheError (env.Error e)] }
          finish env tgt skip rc err data errS w s                       -- 98-129
      | none => finish env tgt skip rc err data errS w s                 -- 98-129
  | some cReply =>
    let s := { s with metrics := s.metrics.Increment "cached" }          -- 116
    let rc : Int := cReply.Status                                        -- 117
    respond tgt rc data errS w s                                         -- 120-129

/-! ## The handlers of `/bleed/` and `/bleed/query` -/

/-- The two fields of `url.URL` that `bleedQueryHandler` reads. -/
structure URL where
  Scheme : String
  Host : String
deriving DecidableEq, Repr

/-- The value of `r.URL.Query()`: a map from a parameter name to its values,
`none` for a name that does not occur. -/
abbrev Values := String → Option (List String)

/-- The function `bleedHandler` of lines 152-160, given `r.URL.Path`; the
handler is registered for paths that start with `/bleed/`, seven bytes. -/
def bleedHandler {κ π : Type} (env : Env κ π) (path : String) (w : ResponseWriter)
    (s : World κ π) : Outcome κ π :=
  let host := path.drop 7                                                -- 153
  let tgt : Target := { HostIp := host, Service := "https" }             -- 155-158
  handleRequest env tgt w true s                                         -- 159

/-- Lines 163-185 of `bleedQueryHandler`: the target and the skip flag that
line 187 hands to `handleRequest`, or `none` when line 165 returns.  The
standard library's `url.Parse` is the parameter `parse` (`none` for an error). -/
def bleedQueryArgs (parse : String → Option URL) (query : Values) :
    Option (Target × Bool) :=
  match query "u" with                                                   -- 163
  | none => none                                                         -- 164-165
  | some q =>
    match q with
    | [q0] =>
      let s : Bool :=                                                    -- 168-172
        match query "skip" with
        | some skip => if skip.length = 1 then true else false
        | none => false
      let tgt : Target := { HostIp := q0, Service := "https" }           -- 174-177
      let tgt : Target :=
        match parse tgt.HostIp with                                      -- 179
        | some u =>
          if u.Host ≠ "" then                                            -- 180
            let tgt := { tgt with HostIp := u.Host }                     -- 181
            if u.Scheme ≠ "" then { tgt with Service := u.Scheme }       -- 182-183
            else tgt
          else tgt
        | none => tgt
      some (tgt, s)
    | _ => none                                                          -- 164-165

/-- The function `bleedQueryHandler` of lines 162-188. -/
def bleedQueryHandler {κ π : Type} (env : Env κ π) (parse : String → Option URL)
    (query : Values) (w : ResponseWriter) (s : World κ π) : Outcome κ π :=
  match bleedQueryArgs parse query with
  | none => ⟨s, w, Completion.returned⟩                                  -- 165
  | some (tgt, skip) => handleRequest env tgt w skip s                   -- 187

/-- A sequence of classification requests served one after the other, each
with a response writer of its own; the world is threaded through.  A handler
that panics is recovered by `net/http` and the server goes on. -/
def serve {κ π : Type} (env : Env κ π) (s : World κ π) :
    List (Target × Bool) → World κ π
  | [] => s
  | (tgt, skip) :: rest => serve env (handleRequest env tgt ⟨[], []⟩ skip s).world rest

/-! ## Test doubles -/

/-- A cache store kept as an association list, newest entry first. -/
abbrev Store := List (String × Int)

/-- The `Check` of the association-list store. -/
def Store.Check (k : Store) (host : String) : Option CacheReply :=
  (k.lookup host).map CacheReply.mk

/-- An environment of test doubles.  The store is an association list; its
`Set` returns `setErr`, and stores the entry when `stored` is true.  The
network state is the number of probes made so far, and probe number `n`
returns `probe n`. -/
def doubles (setErr : Option GoError) (stored : Bool)
    (probe : Nat → String × Option GoError) : Env Store Nat where
  Check := Store.Check
  Set := fun k host rc => (if stored then (host, rc) :: k else k, setErr)
  Heartbleed := fun n _ _ _ => (n + 1, probe n)
  SafeText := "safe"
  ClosedText := "closed"

/-- The world at start-up: nothing cached, nothing counted, nothing logged. -/
def world0 : World Store Nat :=
  { cache := [], net := 0, metrics := fun _ => 0, log := [], calls := [] }

/-- A fresh response writer. -/
def w0 : ResponseWriter := { header := [], body := [] }

/-! ## Vocabulary of the statements -/

/-- The response code that lines 64-69 choose for a prober error. -/
def codeOf : Option GoError → Int
  | some GoError.Safe => 1
  | some GoError.Closed => 1
  | some (GoError.other _) => 2
  | none => 0

/-- The `error` field that line 107 gives the response for a prober error. -/
def errorOf : Option GoError → String
  | some (GoError.other text) => text
  | _ => ""

/-- The counter that line 91 increments for a prober error. -/
def counterOf : Option GoError → String
  | some GoError.Safe => "safe"
  | some GoError.Closed => "safe"
  | some (GoError.other _) => "error"
  | none => "vulnerable"

/-- The environment `env` in which the data string of every reply of the prober
is replaced by `d`; state and error of the reply are kept. -/
def Env.withData {κ π : Type} (env : Env κ π)
    (d : π → Target → String → Bool → String) : Env κ π :=
  { env with
    Heartbleed := fun n t p k =>
      ((env.Heartbleed n t p k).1, d n t p k, (env.Heartbleed n t p k).2.2) }

/-- The balance the counters keep: `total` less the three classification counters. -/
def tally (m : Metrics) : Int :=
  (m "total" : Int) - m "vulnerable" - m "safe" - m "error"

/-- A query with the given values of `u` and of `skip` and no other parameter. -/
def queryOf (u skip : Option (List String)) : Values :=
  fun name => if name = "u" then u else if name = "skip" then skip else none

/-- A stand-in for `url.Parse` that knows one URL. -/
def parseOne : String → Option URL :=
  fun raw => if raw = "https://example.com" then some ⟨"https", "example.com"⟩ else none

/-! ## The paths through `handleRequest` -/

/-- Cache hit: the whole outcome. -/
theorem handleRequest_hit {κ π : Type} (env : Env κ π) (tgt : Target)
    (w : ResponseWriter) (skip : Bool) (s : World κ π) (cReply : CacheReply)
    (hc : env.Check s.cache tgt.HostIp = some cReply) :
    handleRequest env tgt w skip s =
      ⟨{ s with calls := s.calls ++ [Call.Check tgt.HostIp],
                metrics := s.metrics.Increment "cached" },
       (w.HeaderSet "Access-Control-Allow-Origin" "*").Write
         ⟨cReply.Status, "", "", tgt.HostIp⟩,
       Completion.returned⟩ := by
  simp [handleRequest, hc, respond]

/-- Cache miss: what the handler does to the world, whatever the prober and
`cache.Set` return. -/
theorem handleRequest_miss_world {κ π : Type} (env : Env κ π) (tgt : Target)
    (w : ResponseWriter) (skip : Bool) (s : World κ π)
    (net1 : π) (data : String) (err : Option GoError) (cache1 : κ)
    (cerr : Option GoError)
    (hc : env.Check s.cache tgt.HostIp = none)
    (hp : env.Heartbleed s.net tgt PAYLOAD skip = (net1, data, err))
    (hs : env.Set s.cache tgt.HostIp (codeOf err) = (cache1, cerr)) :
    (handleRequest env tgt w skip s).world.cache = cache1 ∧
    (handleRequest env tgt w skip s).world.net = net1 ∧
    (handleRequest env tgt w skip s).world.metrics
      = (s.metrics.Increment "total").Increment (counterOf err) ∧
    (handleRequest env tgt w skip s).world.calls
      = s.calls ++ [Call.Check tgt.HostIp, Call.Heartbleed tgt PAYLOAD skip,
                    Call.Set tgt.HostIp (codeOf err)] := by
  rcases err with _ | _ | _ | text <;> rcases cerr with _ | ce <;>
    simp only [codeOf] at hs <;>
    simp [handleRequest, hc, hp, hs, index, metricName, finish, respond, counterOf, codeOf]

/-- Cache miss, the prober returns an error (any non-nil one): the handler
returns, and writes one result, whatever `cache.Set` returns. -/
theorem handleRequest_miss_error {κ π : Type} (env : Env κ π) (tgt : Target)
    (w : ResponseWriter) (skip : Bool) (s : World κ π)
    (net1 : π) (data : String) (e : GoError)
    (hc : env.Check s.cache tgt.HostIp = none)
    (hp : env.Heartbleed s.net tgt PAYLOAD skip = (net1, data, some e)) :
    (handleRequest env tgt w skip s).completion = Completion.returned ∧
    (handleRequest env tgt w skip s).w
      = (w.HeaderSet "Access-Control-Allow-Origin" "*").Write
          ⟨codeOf (some e), "", errorOf (some e), tgt.HostIp⟩ := by
  rcases e with _ | _ | text <;>
    simp only [handleRequest, hc, hp, index, metricName, codeOf, errorOf] <;>
    simp <;>
    split <;>
    simp [finish, respond, switchRc, Env.Error] <;>
    split <;> simp

/-- Cache miss, the prober returns no error, `cache.Set` returns none: the
handler returns and writes the result with code 0. -/
theorem handleRequest_miss_nil_set {κ π : Type} (env : Env κ π) (tgt : Target)
    (w : ResponseWriter) (skip : Bool) (s : World κ π)
    (net1 : π) (data : String)
    (hc : env.Check s.cache tgt.HostIp = none)
    (hp : env.Heartbleed s.net tgt PAYLOAD skip = (net1, data, none))
    (hs : (env.Set s.cache tgt.HostIp 0).2 = none) :
    (handleRequest env tgt w skip s).completion = Completion.returned ∧
    (handleRequest env tgt w skip s).w
      = (w.HeaderSet "Access-Control-Allow-Origin" "*").Write
          ⟨0, "", "", tgt.HostIp⟩ := by
  simp [handleRequest, hc, hp, hs, index, metricName, finish, respond, switchRc]

/-- Cache miss, the prober returns no error, `cache.Set` returns an error:
line 95 calls `Error()` on the nil `err`; the handler panics and has written
nothing. -/
theorem handleRequest_miss_nil_setError {κ π : Type} (env : Env κ π) (tgt : Target)
    (w : ResponseWriter) (skip : Bool) (s : World κ π)
    (net1 : π) (data : String) (ce : GoError)
    (hc : env.Check s.cache tgt.HostIp = none)
    (hp : env.Heartbleed s.net tgt PAYLOAD skip = (net1, data, none))
    (hs : (env.Set s.cache tgt.HostIp 0).2 = some ce) :
    (handleRequest env tgt w skip s).completion = Completion.panicked ∧
    (handleRequest env tgt w skip s).w
      = w.HeaderSet "Access-Control-Allow-Origin" "*" := by
  simp [handleRequest, hc, hp, hs, index, metricName]

/-! ## Data of the probe never reaches the response -/

/-- C1.  Whatever the target, the skip flag, the cache (hit or miss) and the
reply of the prober: replacing the data string of the prober's replies by any
other changes nothing in the outcome of `handleRequest` (world, response,
completion), and the handler either returns having written exactly one result,
whose `Data` field is the empty string, or panics having written nothing.  So
every result object the handler builds has empty data. -/
theorem C1_data_never_in_response {κ π : Type} (env : Env κ π)
    (d : π → Target → String → Bool → String) (tgt : Target)
    (w : ResponseWriter) (skip : Bool) (s : World κ π) :
    handleRequest (env.withData d) tgt w skip s = handleRequest env tgt w skip s ∧
    (((handleRequest env tgt w skip s).completion = Completion.returned ∧
        ∃ res : result, (handleRequest env tgt w skip s).w.body = w.body ++ [res] ∧
          res.Data = "" ∧ res.Host = tgt.HostIp) ∨
      ((handleRequest env tgt w skip s).completion = Completion.panicked ∧
        (handleRequest env tgt w skip s).w.body = w.body)) := by
  constructor
  · cases hc : env.Check s.cache tgt.HostIp with
    | some r => simp [handleRequest, Env.withData, hc]
    | none =>
      rcases hp : env.Heartbleed s.net tgt PAYLOAD skip with ⟨net1, data, err⟩
      rcases err with _ | _ | _ | text <;>
        simp [handleRequest, Env.withData, hc, hp, index, metricName, finish, respond,
          switchRc, Env.Error]
  · cases hc : env.Check s.cache tgt.HostIp with
    | some r =>
      left
      rw [handleRequest_hit env tgt w skip s r hc]
      exact ⟨rfl, ⟨r.Status, "", "", tgt.HostIp⟩, rfl, rfl, rfl⟩
    | none =>
      rcases hp : env.Heartbleed s.net tgt PAYLOAD skip with ⟨net1, data, err⟩
      cases err with
      | some e =>
        left
        obtain ⟨h1, h2⟩ := handleRequest_miss_error env tgt w skip s net1 data e hc hp
        rw [h1, h2]
        exact ⟨rfl, ⟨codeOf (some e), "", errorOf (some e), tgt.HostIp⟩, rfl, rfl, rfl⟩
      | none =>
        cases hs : (env.Set s.cache tgt.HostIp 0).2 with
        | none =>
          left
          obtain ⟨h1, h2⟩ := handleRequest_miss_nil_set env tgt w skip s net1 data hc hp hs
          rw [h1, h2]
          exact ⟨rfl, ⟨0, "", "", tgt.HostIp⟩, rfl, rfl, rfl⟩
        | some ce =>
          right
          obtain ⟨h1, h2⟩ :=
            handleRequest_miss_nil_setError env tgt w skip s net1 data ce hc hp hs
          rw [h1, h2]
          exact ⟨rfl, rfl⟩

/-! ## Classification on a cache miss -/

/-- C2, evaluated where it fails.  Nothing is cached for `example.com`, the
prober returns data and a nil error, and `cache.Set` returns an error: the
handler panics on line 95 and writes no response at all, so there is no
response with code 0.  With the same prober and a `cache.Set` that returns
nil, the response has code 0 and an empty error field. -/
theorem C2_nil_signal_without_response :
    (doubles (some (GoError.other "timeout")) false (fun _ => ("secret", none))).Check
        world0.cache "example.com" = none ∧
    ((doubles (some (GoError.other "timeout")) false (fun _ => ("secret", none))).Heartbleed
        world0.net ⟨"example.com", "https"⟩ PAYLOAD true).2.2 = none ∧
    (handleRequest (doubles (some (GoError.other "timeout")) false (fun _ => ("secret", none)))
        ⟨"example.com", "https"⟩ w0 true world0).completion = Completion.panicked ∧
    (handleRequest (doubles (some (GoError.other "timeout")) false (fun _ => ("secret", none)))
        ⟨"example.com", "https"⟩ w0 true world0).w.body = [] ∧
    (handleRequest (doubles none false (fun _ => ("secret", none)))
        ⟨"example.com", "https"⟩ w0 true world0).w.body
      = [⟨0, "", "", "example.com"⟩] := by
  decide

/-- On a cache miss where the prober returns `bleed.Safe` or `bleed.Closed`,
the handler returns and the one result it writes has code 1 and an empty error
field, whatever `cache.Set` returns. -/
theorem miss_safe_or_closed {κ π : Type} (env : Env κ π) (tgt : Target)
    (w : ResponseWriter) (skip : Bool) (s : World κ π) (net1 : π) (data : String)
    (e : GoError) (he : e = GoError.Safe ∨ e = GoError.Closed)
    (hc : env.Check s.cache tgt.HostIp = none)
    (hp : env.Heartbleed s.net tgt PAYLOAD skip = (net1, data, some e)) :
    (handleRequest env tgt w skip s).completion = Completion.returned ∧
    (handleRequest env tgt w skip s).w.body = w.body ++ [⟨1, "", "", tgt.HostIp⟩] := by
  obtain ⟨h1, h2⟩ := handleRequest_miss_error env tgt w skip s net1 data e hc hp
  rw [h1, h2]
  rcases he with rfl | rfl <;> exact ⟨rfl, rfl⟩

/-- On a cache miss where the prober returns a nil error and `cache.Set`
returns nil, the handler returns and the one result it writes has code 0 and
an empty error field. -/
theorem miss_nil_cache_written {κ π : Type} (env : Env κ π) (tgt : Target)
    (w : ResponseWriter) (skip : Bool) (s : World κ π) (net1 : π) (data : String)
    (hc : env.Check s.cache tgt.HostIp = none)
    (hp : env.Heartbleed s.net tgt PAYLOAD skip = (net1, data, none))
    (hs : (env.Set s.cache tgt.HostIp 0).2 = none) :
    (handleRequest env tgt w skip s).completion = Completion.returned ∧
    (handleRequest env tgt w skip s).w.body = w.body ++ [⟨0, "", "", tgt.HostIp⟩] := by
  obtain ⟨h1, h2⟩ := handleRequest_miss_nil_set env tgt w skip s net1 data hc hp hs
  rw [h1, h2]
  exact ⟨rfl, rfl⟩

/-- C3 as stated fails: nothing is cached for `10.0.0.5` and the prober returns
an error that is neither `bleed.Safe` nor `bleed.Closed` and whose text is the
empty string; the response has code 2 and its error field is that text, which
is empty. -/
theorem C3_error_text_may_be_empty :
    (doubles none true (fun _ => ("", some (GoError.other "")))).Check
        world0.cache "10.0.0.5" = none ∧
    ((doubles none true (fun _ => ("", some (GoError.other "")))).Heartbleed
        world0.net ⟨"10.0.0.5", "https"⟩ PAYLOAD true).2.2 = some (GoError.other "") ∧
    (handleRequest (doubles none true (fun _ => ("", some (GoError.other ""))))
        ⟨"10.0.0.5", "https"⟩ w0 true world0).w.body = [⟨2, "", "", "10.0.0.5"⟩] ∧
    ¬ ((doubles none true (fun _ => ("", some (GoError.other "")))).Error
        (GoError.other "") ≠ "") := by
  decide

/-- C3, amended.  On a cache miss where the prober returns an error that is
neither `bleed.Safe` nor `bleed.Closed`, the handler returns, whatever
`cache.Set` returns, and the one result it writes has code 2, empty data and
the error's text (`err.Error()`) verbatim as its error field; the field is
non-empty exactly when that text is.  The text `Please try again` is no
exception. -/
theorem C3_error_code_and_text {κ π : Type} (env : Env κ π) (tgt : Target)
    (w : ResponseWriter) (skip : Bool) (s : World κ π) (net1 : π)
    (data text : String)
    (hc : env.Check s.cache tgt.HostIp = none)
    (hp : env.Heartbleed s.net tgt PAYLOAD skip = (net1, data, some (GoError.other text))) :
    (handleRequest env tgt w skip s).completion = Completion.returned ∧
    (handleRequest env tgt w skip s).w.body
      = w.body ++ [⟨2, "", env.Error (GoError.other text), tgt.HostIp⟩] ∧
    env.Error (GoError.other text) = text := by
  obtain ⟨h1, h2⟩ :=
    handleRequest_miss_error env tgt w skip s net1 data (GoError.other text) hc hp
  rw [h1, h2]
  exact ⟨rfl, rfl, rfl⟩

/-- C3, amended, on scenario C of the spec and on the text `Please try again`. -/
theorem C3_error_code_and_text_witness :
    ((doubles none true (fun _ => ("", some (GoError.other "boom")))).Check
        world0.cache "10.0.0.5" = none ∧
      (handleRequest (doubles none true (fun _ => ("", some (GoError.other "boom"))))
        ⟨"10.0.0.5", "https"⟩ w0 true world0).w.body
        = w0.body ++ [⟨2, "", "boom", "10.0.0.5"⟩]) ∧
    (handleRequest (doubles none true (fun _ => ("", some (GoError.other "Please try again"))))
        ⟨"10.0.0.5", "https"⟩ w0 true world0).w.body
      = w0.body ++ [⟨2, "", "Please try again", "10.0.0.5"⟩] :=
  ⟨⟨by decide,
    (C3_error_code_and_text (doubles none true (fun _ => ("", some (GoError.other "boom"))))
      ⟨"10.0.0.5", "https"⟩ w0 true world0 1 "" "boom" (by decide) (by decide)).2.1⟩,
   (C3_error_code_and_text
      (doubles none true (fun _ => ("", some (GoError.other "Please try again"))))
      ⟨"10.0.0.5", "https"⟩ w0 true world0 1 "" "Please try again"
      (by decide) (by decide)).2.1⟩

/-! ## Cache hit -/

/-- Cache hit: calls, store, network, counters, completion and body. -/
theorem handleRequest_hit_facts {κ π : Type} (env : Env κ π) (tgt : Target)
    (w : ResponseWriter) (skip : Bool) (s : World κ π) (cReply : CacheReply)
    (hc : env.Check s.cache tgt.HostIp = some cReply) :
    (handleRequest env tgt w skip s).world.calls = s.calls ++ [Call.Check tgt.HostIp] ∧
    (handleRequest env tgt w skip s).world.cache = s.cache ∧
    (handleRequest env tgt w skip s).world.net = s.net ∧
    (handleRequest env tgt w skip s).world.metrics "cached" = s.metrics "cached" + 1 ∧
    (∀ name : String, name ≠ "cached" →
      (handleRequest env tgt w skip s).world.metrics name = s.metrics name) ∧
    (handleRequest env tgt w skip s).completion = Completion.returned ∧
    (handleRequest env tgt w skip s).w.body
      = w.body ++ [⟨cReply.Status, "", "", tgt.HostIp⟩] := by
  rw [handleRequest_hit env tgt w skip s cReply hc]
  refine ⟨rfl, rfl, rfl, ?_, ?_, rfl, rfl⟩
  · simp [Metrics.Increment]
  · intro name hname
    simp [Metrics.Increment, hname]

/-- C4.  When `cache.Check` finds the target's host, `handleRequest` makes no
call to the prober and no call to `cache.Set` (the only call it makes is the
`Check`; store and network are as before), adds one to the counter `cached`
and leaves every other counter, `total`, `vulnerable`, `safe` and `error`
among them, as it was, and returns having written one result whose code is
the cached status. -/
theorem C4_cache_hit {κ π : Type} (env : Env κ π) (tgt : Target)
    (w : ResponseWriter) (skip : Bool) (s : World κ π) (cReply : CacheReply)
    (hc : env.Check s.cache tgt.HostIp = some cReply) :
    (handleRequest env tgt w skip s).world.calls = s.calls ++ [Call.Check tgt.HostIp] ∧
    (handleRequest env tgt w skip s).world.cache = s.cache ∧
    (handleRequest env tgt w skip s).world.net = s.net ∧
    (handleRequest env tgt w skip s).world.metrics "cached" = s.metrics "cached" + 1 ∧
    (∀ name : String, name ≠ "cached" →
      (handleRequest env tgt w skip s).world.metrics name = s.metrics name) ∧
    (handleRequest env tgt w skip s).completion = Completion.returned ∧
    (handleRequest env tgt w skip s).w.body
      = w.body ++ [⟨cReply.Status, "", "", tgt.HostIp⟩] :=
  handleRequest_hit_facts env tgt w skip s cReply hc

/-- C4 on scenario B of the spec: `example.com` is cached with status 1. -/
theorem C4_cache_hit_witness :
    (doubles none true (fun _ => ("secret", none))).Check
        [("example.com", 1)] "example.com" = some ⟨1⟩ ∧
    (handleRequest (doubles none true (fun _ => ("secret", none)))
        ⟨"example.com", "https"⟩ w0 true
        { world0 with cache := [("example.com", 1)] }).world.calls
      = [Call.Check "example.com"] ∧
    (handleRequest (doubles none true (fun _ => ("secret", none)))
        ⟨"example.com", "https"⟩ w0 true
        { world0 with cache := [("example.com", 1)] }).w.body
      = [⟨1, "", "", "example.com"⟩] :=
  ⟨by decide,
   (C4_cache_hit (doubles none true (fun _ => ("secret", none)))
      ⟨"example.com", "https"⟩ w0 true { world0 with cache := [("example.com", 1)] }
      ⟨1⟩ (by decide)).1,
   (C4_cache_hit (doubles none true (fun _ => ("secret", none)))
      ⟨"example.com", "https"⟩ w0 true { world0 with cache := [("example.com", 1)] }
      ⟨1⟩ (by decide)).2.2.2.2.2.2⟩

/-! ## A failing cache write -/

/-- C5, evaluated where it fails.  Nothing is cached for `example.com` and the
prober returns data and a nil error.  When `cache.Set` returns nil the handler
returns and writes the result with code 0; when `cache.Set` returns an error
the handler panics and writes nothing, the counters and the call to
`cache.Set` having been made in both runs. -/
theorem C5_cache_error_after_nil_signal :
    (handleRequest (doubles none false (fun _ => ("secret", none)))
        ⟨"example.com", "https"⟩ w0 false world0).completion = Completion.returned ∧
    (handleRequest (doubles none false (fun _ => ("secret", none)))
        ⟨"example.com", "https"⟩ w0 false world0).w.body
      = [⟨0, "", "", "example.com"⟩] ∧
    (handleRequest (doubles (some (GoError.other "store is down")) false
          (fun _ => ("secret", none)))
        ⟨"example.com", "https"⟩ w0 false world0).completion = Completion.panicked ∧
    (handleRequest (doubles (some (GoError.other "store is down")) false
          (fun _ => ("secret", none)))
        ⟨"example.com", "https"⟩ w0 false world0).w.body = [] ∧
    (handleRequest (doubles (some (GoError.other "store is down")) false
          (fun _ => ("secret", none)))
        ⟨"example.com", "https"⟩ w0 false world0).world.calls
      = [Call.Check "example.com",
         Call.Heartbleed ⟨"example.com", "https"⟩ PAYLOAD false,
         Call.Set "example.com" 0] := by
  decide

/-- When the prober returns an error (a non-nil one: `bleed.Safe`,
`bleed.Closed` or any other), what `cache.Set` returns has no effect on the
response: the handler returns and writes the same result in any two
environments that differ in `cache.Set` only. -/
theorem cache_error_harmless_after_error {κ π : Type} (env : Env κ π)
    (set2 : κ → String → Int → κ × Option GoError) (tgt : Target)
    (w : ResponseWriter) (skip : Bool) (s : World κ π) (net1 : π) (data : String)
    (e : GoError)
    (hc : env.Check s.cache tgt.HostIp = none)
    (hp : env.Heartbleed s.net tgt PAYLOAD skip = (net1, data, some e)) :
    (handleRequest { env with Set := set2 } tgt w skip s).completion
      = Completion.returned ∧
    (handleRequest env tgt w skip s).completion = Completion.returned ∧
    (handleRequest { env with Set := set2 } tgt w skip s).w
      = (handleRequest env tgt w skip s).w := by
  obtain ⟨h1, h2⟩ := handleRequest_miss_error env tgt w skip s net1 data e hc hp
  obtain ⟨h3, h4⟩ :=
    handleRequest_miss_error { env with Set := set2 } tgt w skip s net1 data e hc hp
  exact ⟨h3, h1, h4.trans h2.symm⟩

/-! ## Counters -/

/-- The counters after one request: a hit counts `cached`; a miss counts
`total` and the counter of the classification. -/
theorem handleRequest_metrics {κ π : Type} (env : Env κ π) (tgt : Target)
    (w : ResponseWriter) (skip : Bool) (s : World κ π) :
    (handleRequest env tgt w skip s).world.metrics = s.metrics.Increment "cached" ∨
    ∃ err : Option GoError,
      (handleRequest env tgt w skip s).world.metrics
        = (s.metrics.Increment "total").Increment (counterOf err) := by
  cases hc : env.Check s.cache tgt.HostIp with
  | some r =>
    left
    rw [handleRequest_hit env tgt w skip s r hc]
  | none =>
    right
    rcases hp : env.Heartbleed s.net tgt PAYLOAD skip with ⟨net1, data, err⟩
    exact ⟨err, (handleRequest_miss_world env tgt w skip s net1 data err _ _ hc hp rfl).2.2.1⟩

/-- One request keeps the balance of the counters and lowers no counter. -/
theorem handleRequest_tally {κ π : Type} (env : Env κ π) (tgt : Target)
    (w : ResponseWriter) (skip : Bool) (s : World κ π) :
    tally (handleRequest env tgt w skip s).world.metrics = tally s.metrics ∧
    ∀ name : String, s.metrics name ≤ (handleRequest env tgt w skip s).world.metrics name := by
  rcases handleRequest_metrics env tgt w skip s with h | ⟨err, h⟩
  · rw [h]
    constructor
    · simp [tally, Metrics.Increment]
    · intro name
      simp only [Metrics.Increment]
      split <;> omega
  · rw [h]
    constructor
    · rcases err with _ | _ | _ | text <;>
        simp [tally, Metrics.Increment, counterOf] <;> omega
    · intro name
      simp only [Metrics.Increment]
      split <;> split <;> omega

/-- A sequence of requests keeps the balance of the counters and lowers no counter. -/
theorem serve_tally {κ π : Type} (env : Env κ π) (reqs : List (Target × Bool)) :
    ∀ s : World κ π, tally (serve env s reqs).metrics = tally s.metrics ∧
      ∀ name : String, s.metrics name ≤ (serve env s reqs).metrics name := by
  induction reqs with
  | nil =>
    intro s
    exact ⟨rfl, fun _ => Nat.le_refl _⟩
  | cons req rest ih =>
    intro s
    obtain ⟨tgt, skip⟩ := req
    obtain ⟨h1, h2⟩ := handleRequest_tally env tgt ⟨[], []⟩ skip s
    obtain ⟨h3, h4⟩ := ih (handleRequest env tgt ⟨[], []⟩ skip s).world
    exact ⟨h3.trans h1, fun name => Nat.le_trans (h2 name) (h4 name)⟩

/-- C6.  Over any sequence of requests served by `handleRequest`, from any
world, no counter decreases and the increase of `total` is the sum of the
increases of `vulnerable`, `safe` and `error`.  For each single request: on a
cache hit `total`, `vulnerable`, `safe` and `error` stay as they are; on a
cache miss `total` grows by one and exactly one of the three counters of
`metricName` grows by one, the other two staying as they are, and that
counter is the one `metricName` has at the code of the result written. -/
theorem C6_total_is_sum_of_classes {κ π : Type} (env : Env κ π) (s : World κ π)
    (reqs : List (Target × Bool)) :
    (∀ name : String, s.metrics name ≤ (serve env s reqs).metrics name) ∧
    (serve env s reqs).metrics "total" - s.metrics "total"
      = ((serve env s reqs).metrics "vulnerable" - s.metrics "vulnerable")
        + ((serve env s reqs).metrics "safe" - s.metrics "safe")
        + ((serve env s reqs).metrics "error" - s.metrics "error") ∧
    (∀ (tgt : Target) (w : ResponseWriter) (skip : Bool) (s0 : World κ π),
      (env.Check s0.cache tgt.HostIp ≠ none →
        ∀ name : String, name ∈ ["total", "vulnerable", "safe", "error"] →
          (handleRequest env tgt w skip s0).world.metrics name = s0.metrics name) ∧
      (env.Check s0.cache tgt.HostIp = none →
        (handleRequest env tgt w skip s0).world.metrics "total" = s0.metrics "total" + 1 ∧
        ∃ name : String, name ∈ metricName ∧
          (handleRequest env tgt w skip s0).world.metrics name = s0.metrics name + 1 ∧
          (∀ other : String, other ∈ metricName → other ≠ name →
            (handleRequest env tgt w skip s0).world.metrics other = s0.metrics other) ∧
          (∀ res : result, (handleRequest env tgt w skip s0).w.body = w.body ++ [res] →
            index metricName res.Code = some name))) := by
  refine ⟨(serve_tally env reqs s).2, ?_, ?_⟩
  · obtain ⟨h1, h2⟩ := serve_tally env reqs s
    have ht := h2 "total"
    have hv := h2 "vulnerable"
    have hs := h2 "safe"
    have he := h2 "error"
    simp only [tally] at h1
    omega
  · intro tgt w skip s0
    constructor
    · intro hne name hname
      cases hc : env.Check s0.cache tgt.HostIp with
      | none => exact absurd hc hne
      | some r =>
        rw [handleRequest_hit env tgt w skip s0 r hc]
        simp only [List.mem_cons, List.mem_singleton, List.not_mem_nil, or_false] at hname
        rcases hname with rfl | rfl | rfl | rfl <;> simp [Metrics.Increment]
    · intro hc
      rcases hp : env.Heartbleed s0.net tgt PAYLOAD skip with ⟨net1, data, err⟩
      have hm := (handleRequest_miss_world env tgt w skip s0 net1 data err _ _ hc hp rfl).2.2.1
      rw [hm]
      refine ⟨?_, counterOf err, ?_, ?_, ?_, ?_⟩
      · rcases err with _ | _ | _ | text <;> simp [Metrics.Increment, counterOf]
      · rcases err with _ | _ | _ | text <;> simp [counterOf, metricName]
      · rcases err with _ | _ | _ | text <;> simp [Metrics.Increment, counterOf]
      · intro other hmem hne
        simp only [metricName, List.mem_cons, List.mem_singleton, List.not_mem_nil,
          or_false] at hmem
        rcases err with _ | _ | _ | text <;> rcases hmem with rfl | rfl | rfl <;>
          simp_all [Metrics.Increment, counterOf]
      · intro res hres
        cases err with
        | some e =>
          rw [(handleRequest_miss_error env tgt w skip s0 net1 data e hc hp).2] at hres
          simp only [ResponseWriter.Write, ResponseWriter.HeaderSet,
            List.append_cancel_left_eq, List.cons.injEq, and_true] at hres
          subst hres
          rcases e with _ | _ | text <;> simp [index, metricName, codeOf, counterOf]
        | none =>
          cases hs : (env.Set s0.cache tgt.HostIp 0).2 with
          | none =>
            rw [(handleRequest_miss_nil_set env tgt w skip s0 net1 data hc hp hs).2] at hres
            simp only [ResponseWriter.Write, ResponseWriter.HeaderSet,
              List.append_cancel_left_eq, List.cons.injEq, and_true] at hres
            subst hres
            simp [index, metricName, counterOf]
          | some ce =>
            rw [(handleRequest_miss_nil_setError env tgt w skip s0 net1 data ce hc hp hs).2]
              at hres
            simp [ResponseWriter.HeaderSet] at hres

/-! ## The same request twice -/

/-- Against a cache store whose `Check(host)` returns what the last
`Set(host, c)` stored: when the first of two equal requests returns, each of
the two writes one result, the two results carry the same code, and the second
request is a cache hit that makes no call but the `Check` and leaves the
network as it was. -/
theorem second_request_is_hit {κ π : Type} (env : Env κ π)
    (hlaw : ∀ (k : κ) (host : String) (c : Int),
      env.Check (env.Set k host c).1 host = some ⟨c⟩)
    (tgt : Target) (w1 w2 : ResponseWriter) (skip : Bool) (s : World κ π)
    (hret : (handleRequest env tgt w1 skip s).completion = Completion.returned) :
    ∃ r1 r2 : result,
      (handleRequest env tgt w1 skip s).w.body = w1.body ++ [r1] ∧
      (handleRequest env tgt w2 skip (handleRequest env tgt w1 skip s).world).w.body
        = w2.body ++ [r2] ∧
      r1.Code = r2.Code ∧
      (handleRequest env tgt w2 skip (handleRequest env tgt w1 skip s).world).world.calls
        = (handleRequest env tgt w1 skip s).world.calls ++ [Call.Check tgt.HostIp] ∧
      (handleRequest env tgt w2 skip (handleRequest env tgt w1 skip s).world).world.net
        = (handleRequest env tgt w1 skip s).world.net := by
  cases hc : env.Check s.cache tgt.HostIp with
  | some r =>
    have hc2 : env.Check (handleRequest env tgt w1 skip s).world.cache tgt.HostIp = some r := by
      rw [handleRequest_hit env tgt w1 skip s r hc]
      exact hc
    obtain ⟨h1, _, h3, _, _, _, h7⟩ := handleRequest_hit_facts env tgt w2 skip _ r hc2
    refine ⟨⟨r.Status, "", "", tgt.HostIp⟩, ⟨r.Status, "", "", tgt.HostIp⟩, ?_, h7, rfl, h1, h3⟩
    rw [handleRequest_hit env tgt w1 skip s r hc]
    rfl
  | none =>
    rcases hp : env.Heartbleed s.net tgt PAYLOAD skip with ⟨net1, data, err⟩
    have hw := handleRequest_miss_world env tgt w1 skip s net1 data err _ _ hc hp rfl
    have hc2 : env.Check (handleRequest env tgt w1 skip s).world.cache tgt.HostIp
        = some ⟨codeOf err⟩ := by
      rw [hw.1]
      exact hlaw _ _ _
    obtain ⟨h1, _, h3, _, _, _, h7⟩ := handleRequest_hit_facts env tgt w2 skip _ _ hc2
    refine ⟨⟨codeOf err, "", errorOf err, tgt.HostIp⟩, ⟨codeOf err, "", "", tgt.HostIp⟩,
      ?_, h7, rfl, h1, h3⟩
    cases err with
    | some e =>
      rw [(handleRequest_miss_error env tgt w1 skip s net1 data e hc hp).2]
      rfl
    | none =>
      cases hs : (env.Set s.cache tgt.HostIp 0).2 with
      | none =>
        rw [(handleRequest_miss_nil_set env tgt w1 skip s net1 data hc hp hs).2]
        rfl
      | some ce =>
        rw [(handleRequest_miss_nil_setError env tgt w1 skip s net1 data ce hc hp hs).1]
          at hret
        exact absurd hret (by decide)

/-- C7, evaluated where it fails.  The store of these doubles returns on
`Check(host)` what the last `Set(host, c)` stored, and its `Set` reports an
error after storing.  Nothing is cached for `example.com` and the prober
returns a nil error.  The first request panics on line 95 and writes no
response; the second, a cache hit that makes no probe, writes code 0.  There
are not two responses with the same code. -/
theorem C7_first_request_without_response :
    (∀ (k : Store) (host : String) (c : Int),
      (doubles (some (GoError.other "timeout")) true (fun _ => ("secret", none))).Check
        ((doubles (some (GoError.other "timeout")) true (fun _ => ("secret", none))).Set
          k host c).1 host = some ⟨c⟩) ∧
    (handleRequest (doubles (some (GoError.other "timeout")) true (fun _ => ("secret", none)))
        ⟨"example.com", "https"⟩ w0 true world0).completion = Completion.panicked ∧
    (handleRequest (doubles (some (GoError.other "timeout")) true (fun _ => ("secret", none)))
        ⟨"example.com", "https"⟩ w0 true world0).w.body = [] ∧
    (handleRequest (doubles (some (GoError.other "timeout")) true (fun _ => ("secret", none)))
        ⟨"example.com", "https"⟩ w0 true
        (handleRequest (doubles (some (GoError.other "timeout")) true
            (fun _ => ("secret", none)))
          ⟨"example.com", "https"⟩ w0 true world0).world).w.body
      = [⟨0, "", "", "example.com"⟩] ∧
    (handleRequest (doubles (some (GoError.other "timeout")) true (fun _ => ("secret", none)))
        ⟨"example.com", "https"⟩ w0 true
        (handleRequest (doubles (some (GoError.other "timeout")) true
            (fun _ => ("secret", none)))
          ⟨"example.com", "https"⟩ w0 true world0).world).world.net = 1 := by
  refine ⟨?_, by decide, by decide, by decide, by decide⟩
  intro k host c
  simp [doubles, Store.Check, List.lookup]

/-! ## The query handler -/

/-- C8 as stated fails: the query has one value of `u` and the parameter
`skip` twice; the skip flag handed to `handleRequest` is false. -/
theorem C8_skip_twice_is_false :
    bleedQueryArgs parseOne (queryOf (some ["example.com"]) (some ["1", "2"]))
      = some (⟨"example.com", "https"⟩, false) := by
  decide

/-- With exactly one value of `u` the handler reaches line 187; the skip flag
is the one of lines 168-172. -/
theorem bleedQueryArgs_one (parse : String → Option URL) (query : Values) (u : String)
    (hu : query "u" = some [u]) :
    ∃ tgt : Target, bleedQueryArgs parse query
      = some (tgt, match query "skip" with
                   | some skip => if skip.length = 1 then true else false
                   | none => false) := by
  simp only [bleedQueryArgs, hu]
  exact ⟨_, rfl⟩

/-- C8, amended.  For a query with exactly one value of `u`, the handler calls
`handleRequest`, and the skip flag it passes is true exactly when the
parameter `skip` occurs with exactly one value, whatever that value; it is
false when `skip` is absent and when `skip` has another number of values. -/
theorem C8_skip_flag {κ π : Type} (env : Env κ π) (parse : String → Option URL)
    (query : Values) (w : ResponseWriter) (s : World κ π) (u : String)
    (hu : query "u" = some [u]) :
    ∃ (tgt : Target) (flag : Bool),
      bleedQueryArgs parse query = some (tgt, flag) ∧
      bleedQueryHandler env parse query w s = handleRequest env tgt w flag s ∧
      (flag = true ↔ ∃ v : String, query "skip" = some [v]) ∧
      (query "skip" = none → flag = false) ∧
      (∀ vs : List String, query "skip" = some vs → vs.length ≠ 1 → flag = false) := by
  obtain ⟨tgt, htgt⟩ := bleedQueryArgs_one parse query u hu
  have hh : bleedQueryHandler env parse query w s
      = handleRequest env tgt w
          (match query "skip" with
            | some skip => if skip.length = 1 then true else false
            | none => false) s := by
    simp only [bleedQueryHandler, htgt]
  refine ⟨tgt, _, htgt, hh, ?_, ?_, ?_⟩
  · cases hk : query "skip" with
    | none => simp
    | some vs =>
      constructor
      · intro h
        have hlen : vs.length = 1 := by
          by_contra hne
          simp [hne] at h
        obtain ⟨v, rfl⟩ := List.length_eq_one.mp hlen
        exact ⟨v, rfl⟩
      · rintro ⟨v, hv⟩
        simp only [Option.some.injEq] at hv
        subst hv
        simp
  · intro hk
    simp [hk]
  · intro vs hk hlen
    simp [hk, hlen]

/-- C8, amended, on a query with one `u` and one `skip`: the flag is true. -/
theorem C8_skip_flag_witness :
    queryOf (some ["example.com"]) (some ["1"]) "u" = some ["example.com"] ∧
    ∃ (tgt : Target) (flag : Bool),
      bleedQueryArgs parseOne (queryOf (some ["example.com"]) (some ["1"]))
        = some (tgt, flag) ∧
      bleedQueryHandler (doubles none true (fun _ => ("", none))) parseOne
          (queryOf (some ["example.com"]) (some ["1"])) w0 world0
        = handleRequest (doubles none true (fun _ => ("", none))) tgt w0 flag world0 ∧
      (flag = true ↔ ∃ v : String, queryOf (some ["example.com"]) (some ["1"]) "skip" = some [v]) ∧
      (queryOf (some ["example.com"]) (some ["1"]) "skip" = none → flag = false) ∧
      (∀ vs : List String, queryOf (some ["example.com"]) (some ["1"]) "skip" = some vs →
        vs.length ≠ 1 → flag = false) :=
  ⟨by decide,
   C8_skip_flag (doubles none true (fun _ => ("", none))) parseOne
     (queryOf (some ["example.com"]) (some ["1"])) w0 world0 "example.com" (by decide)⟩

/-- C9.  For a query with the single value `u` of the parameter `u`, with
`url.Parse` a given function: when `u` parses to a URL with a non-empty host,
the target handed to `handleRequest` has that host, and as service the URL's
scheme if non-empty and `https` otherwise; when `u` does not parse, or parses
to a URL with an empty host, the target has `u` itself as host and `https` as
service.  In particular `https://example.com`, parsed to scheme `https` and
host `example.com`, gives host `example.com` and service `https`. -/
theorem C9_target_of_query {κ π : Type} (env : Env κ π) (parse : String → Option URL)
    (query : Values) (w : ResponseWriter) (s : World κ π) (u : String)
    (hu : query "u" = some [u]) :
    ∃ flag : Bool,
      (∀ url : URL, parse u = some url → url.Host ≠ "" →
        bleedQueryArgs parse query
          = some (⟨url.Host, if url.Scheme ≠ "" then url.Scheme else "https"⟩, flag) ∧
        bleedQueryHandler env parse query w s
          = handleRequest env
              ⟨url.Host, if url.Scheme ≠ "" then url.Scheme else "https"⟩ w flag s) ∧
      ((parse u = none ∨ ∃ url : URL, parse u = some url ∧ url.Host = "") →
        bleedQueryArgs parse query = some (⟨u, "https"⟩, flag) ∧
        bleedQueryHandler env parse query w s = handleRequest env ⟨u, "https"⟩ w flag s) ∧
      (u = "https://example.com" → parse u = some ⟨"https", "example.com"⟩ →
        bleedQueryArgs parse query = some (⟨"example.com", "https"⟩, flag) ∧
        bleedQueryHandler env parse query w s
          = handleRequest env ⟨"example.com", "https"⟩ w flag s) := by
  refine ⟨match query "skip" with
          | some skip => if skip.length = 1 then true else false
          | none => false, ?_, ?_, ?_⟩
  · intro url hparse hhost
    by_cases hscheme : url.Scheme = ""
    · simp [bleedQueryHandler, bleedQueryArgs, hu, hparse, hhost, hscheme]
    · simp [bleedQueryHandler, bleedQueryArgs, hu, hparse, hhost, hscheme]
  · rintro (hparse | ⟨url, hparse, hhost⟩)
    · simp [bleedQueryHandler, bleedQueryArgs, hu, hparse]
    · simp [bleedQueryHandler, bleedQueryArgs, hu, hparse, hhost]
  · intro _ hparse
    simp [bleedQueryHandler, bleedQueryArgs, hu, hparse]

/-- C9 on scenario A of the spec: the query `?u=https://example.com&skip=1`. -/
theorem C9_target_of_query_witness :
    queryOf (some ["https://example.com"]) (some ["1"]) "u" = some ["https://example.com"] ∧
    ∃ flag : Bool,
      (∀ url : URL, parseOne "https://example.com" = some url → url.Host ≠ "" →
        bleedQueryArgs parseOne (queryOf (some ["https://example.com"]) (some ["1"]))
          = some (⟨url.Host, if url.Scheme ≠ "" then url.Scheme else "https"⟩, flag) ∧
        bleedQueryHandler (doubles none true (fun _ => ("", none))) parseOne
            (queryOf (some ["https://example.com"]) (some ["1"])) w0 world0
          = handleRequest (doubles none true (fun _ => ("", none)))
              ⟨url.Host, if url.Scheme ≠ "" then url.Scheme else "https"⟩ w0 flag world0) ∧
      ((parseOne "https://example.com" = none ∨
          ∃ url : URL, parseOne "https://example.com" = some url ∧ url.Host = "") →
        bleedQueryArgs parseOne (queryOf (some ["https://example.com"]) (some ["1"]))
          = some (⟨"https://example.com", "https"⟩, flag) ∧
        bleedQueryHandler (doubles none true (fun _ => ("", none))) parseOne
            (queryOf (some ["https://example.com"]) (some ["1"])) w0 world0
          = handleRequest (doubles none true (fun _ => ("", none)))
              ⟨"https://example.com", "https"⟩ w0 flag world0) ∧
      ("https://example.com" = "https://example.com" →
        parseOne "https://example.com" = some ⟨"https", "example.com"⟩ →
        bleedQueryArgs parseOne (queryOf (some ["https://example.com"]) (some ["1"]))
          = some (⟨"example.com", "https"⟩, flag) ∧
        bleedQueryHandler (doubles none true (fun _ => ("", none))) parseOne
            (queryOf (some ["https://example.com"]) (some ["1"])) w0 world0
          = handleRequest (doubles none true (fun _ => ("", none)))
              ⟨"example.com", "https"⟩ w0 flag world0) :=
  ⟨by decide,
   C9_target_of_query (doubles none true (fun _ => ("", none))) parseOne
     (queryOf (some ["https://example.com"]) (some ["1"])) w0 world0
     "https://example.com" (by decide)⟩

/-- Scenario A of the spec, run: the response and the target that was probed. -/
theorem scenario_A :
    (bleedQueryHandler (doubles none true (fun _ => ("", none))) parseOne
        (queryOf (some ["https://example.com"]) (some ["1"])) w0 world0).w.body
      = [⟨0, "", "", "example.com"⟩] ∧
    (bleedQueryHandler (doubles none true (fun _ => ("", none))) parseOne
        (queryOf (some ["https://example.com"]) (some ["1"])) w0 world0).world.calls
      = [Call.Check "example.com",
         Call.Heartbleed ⟨"example.com", "https"⟩ PAYLOAD true,
         Call.Set "example.com" 0] := by
  decide

/-- Scenario C of the spec, run: the path form `/bleed/10.0.0.5`. -/
theorem scenario_C :
    (bleedHandler (doubles none true (fun _ => ("", some (GoError.other "boom"))))
        "/bleed/10.0.0.5" w0 world0).w.body
      = [⟨2, "", "boom", "10.0.0.5"⟩] := by
  decide

/-- C10.  When the query has no parameter `u`, or has a number of values of
`u` other than one, `bleedQueryHandler` returns at once: `handleRequest` is
not called, the response writer is as it was (no body, no header), and the
world is as it was: no call to `cache.Check`, to the prober or to `cache.Set`
is recorded, and no counter has moved. -/
theorem C10_no_u_no_action {κ π : Type} (env : Env κ π) (parse : String → Option URL)
    (query : Values) (w : ResponseWriter) (s : World κ π)
    (hu : query "u" = none ∨ ∃ us : List String, query "u" = some us ∧ us.length ≠ 1) :
    bleedQueryArgs parse query = none ∧
    bleedQueryHandler env parse query w s = ⟨s, w, Completion.returned⟩ ∧
    (bleedQueryHandler env parse query w s).w.body = w.body ∧
    (bleedQueryHandler env parse query w s).world.calls = s.calls ∧
    (bleedQueryHandler env parse query w s).world.metrics = s.metrics := by
  have hargs : bleedQueryArgs parse query = none := by
    rcases hu with hu | ⟨us, hu, hlen⟩
    · simp only [bleedQueryArgs, hu]
    · match us, hlen with
      | [], _ => simp only [bleedQueryArgs, hu]
      | [a], hlen => exact absurd rfl hlen
      | a :: b :: rest, _ => simp only [bleedQueryArgs, hu]
  have hh : bleedQueryHandler env parse query w s = ⟨s, w, Completion.returned⟩ := by
    simp only [bleedQueryHandler, hargs]
  rw [hh]
  exact ⟨hargs, rfl, rfl, rfl, rfl⟩

/-- C10 on a query without `u` and on a query with `u` twice. -/
theorem C10_no_u_no_action_witness :
    (queryOf none (some ["1"]) "u" = none ∧
      bleedQueryHandler (doubles none true (fun _ => ("secret", none))) parseOne
          (queryOf none (some ["1"])) w0 world0
        = ⟨world0, w0, Completion.returned⟩) ∧
    ((∃ us : List String,
        queryOf (some ["a.example", "b.example"]) none "u" = some us ∧ us.length ≠ 1) ∧
      (bleedQueryHandler (doubles none true (fun _ => ("secret", none))) parseOne
          (queryOf (some ["a.example", "b.example"]) none) w0 world0).w.body = []) :=
  ⟨⟨by decide,
    (C10_no_u_no_action (doubles none true (fun _ => ("secret", none))) parseOne
      (queryOf none (some ["1"])) w0 world0 (Or.inl (by decide))).2.1⟩,
   ⟨⟨["a.example", "b.example"], by decide, by decide⟩,
    (C10_no_u_no_action (doubles none true (fun _ => ("secret", none))) parseOne
      (queryOf (some ["a.example", "b.example"]) none) w0 world0
      (Or.inr ⟨["a.example", "b.example"], by decide, by decide⟩)).2.2.1⟩⟩

end Heartbleed
